import Mathlib

/-!
Shallow embedding of the `learn-rust` repository
(`src/programs/Structs-Rectangle/src/main.rs`,
`src/programs/guessing_game/src/main.rs`,
`src/notes/01-Basics/variables.rs`) and proofs about it.

Machine integers (`u32`) are modelled as `Nat` with explicit `% 2^32`
where overflow matters.  Standard input is modelled as a finite list of
read events: each event is either a successfully read line (a `String`)
or an I/O error (`read_line` returning `Err`).  Printing is modelled by
accumulating the printed messages in a `List String`.
-/

/-- The size of the `u32` value space. -/
def u32Size : Nat := 2 ^ 32

/-- One result of `io::stdin().read_line(...)`: either a line was read,
or the read operation itself failed. -/
inductive ReadEvent where
  | line (s : String)
  | ioError
deriving DecidableEq, Repr

/-! ### Trimming and parsing

Both programs run `input.trim().parse::<u32>()` on each line read from
standard input.  We model `str::trim` (strip leading and trailing
whitespace) and `str::parse::<u32>` (an optional leading `+` sign,
then one or more decimal digits, value at most `u32::MAX`). -/

/-- Strip leading whitespace characters from a list of characters
(the direction-specific half of Rust's `str::trim`). -/
def trimLeft : List Char → List Char
  | [] => []
  | c :: cs => if c.isWhitespace then trimLeft cs else c :: cs

/-- Strip leading and trailing whitespace characters: Rust's
`str::trim` on the character list of a string. -/
def trimList (s : List Char) : List Char :=
  (trimLeft ((trimLeft s).reverse)).reverse

/-- Rust's `str::trim`. -/
def trim (s : String) : String :=
  ⟨trimList s.data⟩

/-- Decimal value of a digit list, most significant digit first. -/
def digitsVal (cs : List Char) : Nat :=
  cs.foldl (fun acc c => acc * 10 + (c.toNat - 48)) 0

/-- Rust's `str::parse::<u32>`: an optional leading `+`, then a
nonempty run of decimal digits whose value fits in 32 bits; anything
else is a parse error (`None`). -/
def parseChars (s : List Char) : Option Nat :=
  let s := match s with
    | '+' :: cs => cs
    | cs => cs
  if s.isEmpty then none
  else if s.all Char.isDigit then
    if digitsVal s < u32Size then some (digitsVal s) else none
  else none

/-- `str::parse::<u32>` on a `String`. -/
def parse_u32 (s : String) : Option Nat :=
  parseChars s.data

/-! ### `Structs-Rectangle`: the `Rectangle` struct -/

/-- The `Rectangle` struct: two `u32` fields, modelled as `Nat`. -/
structure Rectangle where
  width : Nat
  height : Nat
deriving DecidableEq, Repr

/-- `Rectangle::new(width, height)`. -/
def Rectangle.new (width height : Nat) : Rectangle :=
  { width := width, height := height }

/-- The method `Rectangle::area`: `self.width * self.height` as a
`u32` multiplication (wrapping at 2^32). -/
def Rectangle.area (self : Rectangle) : Nat :=
  self.width * self.height % u32Size

/-- The free function `area`: `rect.height * rect.width` as a `u32`
multiplication (wrapping at 2^32). -/
def area (rect : Rectangle) : Nat :=
  rect.height * rect.width % u32Size

/-! ### `Structs-Rectangle`: `get_input` and `Rectangle::build` -/

/-- Outcome of `get_input`: a parsed value together with the remaining
input events and the messages printed so far; or a panic (from
`.expect("Failed to read line")`); or the modelled input events ran
out while the loop was still retrying. -/
inductive GetInputResult where
  | ok (value : Nat) (rest : List ReadEvent) (out : List String)
  | fatal (msg : String) (out : List String)
  | outOfInput (out : List String)
deriving DecidableEq, Repr

/-- The `loop` inside `get_input`: read a line; a failing read panics
with "Failed to read line"; a line that parses (after trimming)
returns its value; otherwise print "Input a number" and retry. -/
def getInputLoop (out : List String) : List ReadEvent → GetInputResult
  | [] => .outOfInput out
  | .ioError :: _ => .fatal "Failed to read line" out
  | .line s :: rest =>
    match parse_u32 (trim s) with
    | some num => .ok num rest out
    | none => getInputLoop (out ++ ["Input a number"]) rest

/-- `fn get_input(inp: &str) -> u32`: print the prompt for `inp`,
then run the retry loop. -/
def get_input (inp : String) (stdin : List ReadEvent) : GetInputResult :=
  getInputLoop ["Enter value for " ++ inp ++ ": "] stdin

/-- Outcome of `Rectangle::build`: the built rectangle with the
remaining input and the printed messages, or the propagated failure
of one of its two `get_input` calls. -/
inductive BuildResult where
  | ok (r : Rectangle) (rest : List ReadEvent) (out : List String)
  | fatal (msg : String) (out : List String)
  | outOfInput (out : List String)
deriving DecidableEq, Repr

/-- `Rectangle::build`: read `width`, then `height`, then construct
the rectangle with `Rectangle::new`. -/
def Rectangle.build (stdin : List ReadEvent) : BuildResult :=
  match get_input "width" stdin with
  | .fatal m o => .fatal m o
  | .outOfInput o => .outOfInput o
  | .ok width rest o1 =>
    match get_input "height" rest with
    | .fatal m o2 => .fatal m (o1 ++ o2)
    | .outOfInput o2 => .outOfInput (o1 ++ o2)
    | .ok height rest2 o2 => .ok (Rectangle.new width height) rest2 (o1 ++ o2)

/-! ### `guessing_game` -/

/-- Status of the guessing-game loop: still playing, won (the `break`
after "You win!"), or panicked (`.expect("Failed to read line")`). -/
inductive Status where
  | playing
  | won
  | fatal (msg : String)
deriving DecidableEq, Repr

/-- State of the guessing game: the secret, the remaining input
events, the messages printed so far, and the loop status. -/
structure GameState where
  secret : Nat
  stdin : List ReadEvent
  out : List String
  status : Status
deriving DecidableEq, Repr

/-- One iteration of the guessing-game `loop`: read a line (a failing
read panics with "Failed to read line"); on parse failure print
"Please input a valid number!" and continue; otherwise compare the
guess to the secret with `guess.cmp(&secret)` and print "Too small!",
"Too big!", or "You win!" (the last one breaking the loop).  Terminal
states are left unchanged. -/
def gameStep (s : GameState) : GameState :=
  match s.status with
  | .won => s
  | .fatal _ => s
  | .playing =>
    match s.stdin with
    | [] => s
    | .ioError :: rest =>
      { s with stdin := rest, status := .fatal "Failed to read line" }
    | .line l :: rest =>
      match parse_u32 (trim l) with
      | none => { s with stdin := rest, out := s.out ++ ["Please input a valid number!"] }
      | some guess =>
        if guess < s.secret then
          { s with stdin := rest, out := s.out ++ ["Too small!"] }
        else if s.secret < guess then
          { s with stdin := rest, out := s.out ++ ["Too big!"] }
        else
          { s with stdin := rest, out := s.out ++ ["You win!"], status := .won }

/-- Modelled from the spec: `rand::random_range(lo..=hi)` (the `rand`
crate, not part of this repository) samples one value from the closed
range `[lo, hi]`; the randomness source is abstracted as a natural
number `r`. -/
def random_range (lo hi r : Nat) : Nat :=
  lo + r % (hi + 1 - lo)

/-- The three lines `main` prints before entering the loop. -/
def gamePreamble (secret : Nat) : List String :=
  ["Secret number is: " ++ toString secret,
   "Welcome to the Guessing Game!",
   "Input a guess from 1 to 100: "]

/-- The guessing game's `main`, with the sampled secret made explicit:
print the preamble, then run the loop over the given input events
(each loop iteration consumes one event, so `stdin.length` steps
exhaust the modelled input). -/
def guessing_main (secret : Nat) (stdin : List ReadEvent) : GameState :=
  gameStep^[stdin.length]
    { secret := secret, stdin := stdin, out := gamePreamble secret, status := .playing }

/-! ### `variables.rs` -/

/-- `fn immutable()`: the messages it prints. -/
def immutable : List String :=
  let x := 5
  ["Demonstrating immutable variables:",
   "The value of x is: " ++ toString x]

/-- `fn mutable()`: the messages it prints. -/
def mutable : List String :=
  let y := 10
  let msg1 := "The value of y is: " ++ toString y
  let y := 15
  ["Demonstrating mutable variables:", msg1,
   "The value of y is now: " ++ toString y]

/-- `fn constants()` exactly as written in the source: its body is the
empty block `{}` (the `println!` and `const` lines that follow sit at
top level, outside any function), so it prints nothing. -/
def constants : List String := []

/-- Modelled from the spec: the `constants` procedure the spec
describes (print the header, then the value of
`THREE_HOURS_IN_SECONDS = 60 * 60 * 3`); the source's `fn constants()
{}` leaves this body stranded at top level. -/
def constants_intended : List String :=
  let THREE_HOURS_IN_SECONDS : Nat := 60 * 60 * 3
  ["Demonstrating constants:",
   "Three hours in seconds is: " ++ toString THREE_HOURS_IN_SECONDS]

/-- `fn shadowing()`: the messages it prints, with the shadowed
rebindings of `x` made explicit. -/
def shadowing : List String :=
  let x := 5
  let x := x + 1
  let innerMsg :=
    let x := x * 2
    "The value of x in the inner scope is: " ++ toString x
  ["Demonstrating variable shadowing:", innerMsg,
   "The value of x in the outer scope is: " ++ toString x]

/-- `fn main()` of `variables.rs`: call the four procedures
unconditionally, in order. -/
def variables_main : List String :=
  immutable ++ mutable ++ constants ++ shadowing

/-! ### Claims -/

/-- C1: for every pair of `u32` values `(w, h)`, the area of the
rectangle constructed by `Rectangle::new(w, h)` is the product
`w * h` reduced modulo 2^32, and equals the exact product whenever
that product fits in 32 bits. -/
theorem c1_area_of_new (w h : Nat) (hw : w < u32Size) (hh : h < u32Size) :
    (Rectangle.new w h).area = w * h % u32Size ∧
      (w * h < u32Size → (Rectangle.new w h).area = w * h) := by
  refine ⟨rfl, fun hlt => ?_⟩
  simp [Rectangle.new, Rectangle.area, Nat.mod_eq_of_lt hlt]

/-- Witness for C1 at `w = 6`, `h = 7`. -/
theorem c1_witness :
    6 < u32Size ∧ 7 < u32Size ∧
      ((Rectangle.new 6 7).area = 6 * 7 % u32Size ∧
        (6 * 7 < u32Size → (Rectangle.new 6 7).area = 6 * 7)) :=
  ⟨by decide, by decide, c1_area_of_new 6 7 (by decide) (by decide)⟩

/-- C10: the free function `area` (computing `height * width`) and the
method `Rectangle::area` (computing `width * height`) agree on every
rectangle. -/
theorem c10_area_impls_agree (r : Rectangle) : area r = r.area := by
  simp [area, Rectangle.area, Nat.mul_comm]

/-- C6: the shadowing demonstration takes no input and deterministically
prints 12 for the shadowed variable in the inner block and 6 for the
variable visible in the outer scope after the block. -/
theorem c6_shadowing_values :
    shadowing = ["Demonstrating variable shadowing:",
      "The value of x in the inner scope is: 12",
      "The value of x in the outer scope is: 6"] := by
  rfl

/-- C9 (code bug): `fn constants()` as written in the source has the
empty body `{}`, so it prints nothing; in particular it does not print
the value 10800 the spec describes (whose intended output
`constants_intended` ends with "Three hours in seconds is: 10800"),
and `variables_main` therefore lacks that line as well. -/
theorem c9_constants_body_empty :
    constants = [] ∧
      constants_intended
        = ["Demonstrating constants:", "Three hours in seconds is: 10800"] ∧
      constants ≠ constants_intended ∧
      "Three hours in seconds is: 10800" ∉ variables_main := by
  refine ⟨rfl, rfl, by decide, by decide⟩

/-- The loop body never changes the secret. -/
theorem gameStep_secret (s : GameState) : (gameStep s).secret = s.secret := by
  unfold gameStep
  repeat' split
  all_goals rfl

/-- C2: in the game loop, a parsed guess below the secret prints
"Too small!" and stays in the playing state; one above the secret
prints "Too big!" and stays playing; one equal to the secret prints
"You win!" and ends the loop (the won state is a fixed point); and
the concrete run with secret 42 and input lines "10", "90", "42"
prints too-small, too-big, win in that order and terminates. -/
theorem c2_game_loop :
    (∀ secret l rest out g, parse_u32 (trim l) = some g → g < secret →
        gameStep ⟨secret, .line l :: rest, out, .playing⟩
          = ⟨secret, rest, out ++ ["Too small!"], .playing⟩) ∧
    (∀ secret l rest out g, parse_u32 (trim l) = some g → secret < g →
        gameStep ⟨secret, .line l :: rest, out, .playing⟩
          = ⟨secret, rest, out ++ ["Too big!"], .playing⟩) ∧
    (∀ secret l rest out, parse_u32 (trim l) = some secret →
        gameStep ⟨secret, .line l :: rest, out, .playing⟩
          = ⟨secret, rest, out ++ ["You win!"], .won⟩) ∧
    (∀ s : GameState, s.status = .won → gameStep s = s) ∧
    guessing_main 42 [.line "10", .line "90", .line "42"]
      = ⟨42, [], gamePreamble 42 ++ ["Too small!", "Too big!", "You win!"], .won⟩ := by
  refine ⟨?_, ?_, ?_, ?_, by decide⟩
  · intro secret l rest out g hp hlt
    simp [gameStep, hp, hlt]
  · intro secret l rest out g hp hgt
    simp [gameStep, hp, hgt, Nat.lt_asymm hgt]
  · intro secret l rest out hp
    simp [gameStep, hp]
  · intro s hs
    rcases s with ⟨sec, stdin, out, st⟩
    cases st <;> simp_all [gameStep]

/-- Witness for C2 at secret 42 and guess line "10". -/
theorem c2_witness :
    parse_u32 (trim "10") = some 10 ∧ 10 < 42 ∧
      gameStep ⟨42, [.line "10"], [], .playing⟩
        = ⟨42, [], ["Too small!"], .playing⟩ :=
  ⟨by decide, by decide, c2_game_loop.1 42 "10" [] [] 10 (by decide) (by decide)⟩

/-- C4: a line that does not parse as a non-negative integer makes the
game loop print "Please input a valid number!" and continue playing:
the secret is unchanged, no comparison outcome is printed, the loop
does not terminate, and the next read takes the next line. -/
theorem c4_invalid_guess_retries
    (secret : Nat) (l : String) (rest : List ReadEvent) (out : List String)
    (hp : parse_u32 (trim l) = none) :
    gameStep ⟨secret, .line l :: rest, out, .playing⟩
      = ⟨secret, rest, out ++ ["Please input a valid number!"], .playing⟩ := by
  simp [gameStep, hp]

/-- Witness for C4 at secret 42 and input line "abc". -/
theorem c4_witness :
    parse_u32 (trim "abc") = none ∧
      gameStep ⟨42, [.line "abc"], [], .playing⟩
        = ⟨42, [], ["Please input a valid number!"], .playing⟩ :=
  ⟨by decide, c4_invalid_guess_retries 42 "abc" [] [] (by decide)⟩

/-- C5: the secret is sampled once per run from the closed range
[1, 100] (every sample of `random_range 1 100` lies in that range),
and it never changes during the game loop: a single step preserves it,
and after any number of loop iterations of the game's `main` the
secret is still the value sampled at the start. -/
theorem c5_secret_sampled_once_in_range :
    (∀ r, 1 ≤ random_range 1 100 r ∧ random_range 1 100 r ≤ 100) ∧
    (∀ s : GameState, (gameStep s).secret = s.secret) ∧
    (∀ r stdin, (guessing_main (random_range 1 100 r) stdin).secret
        = random_range 1 100 r) := by
  refine ⟨?_, gameStep_secret, ?_⟩
  · intro r
    have h := Nat.mod_lt r (show 0 < 100 by decide)
    simp only [random_range]
    omega
  · intro r stdin
    generalize random_range 1 100 r = secret
    show (gameStep^[stdin.length] _).secret = secret
    generalize stdin.length = n
    induction n with
    | zero => rfl
    | succ k ih =>
      rw [Function.iterate_succ_apply', gameStep_secret, ih]

/-- C3: `Rectangle::build` prompts for width first and height second;
within a field, a line that fails to parse prints the retry message
and loops on the same field without advancing, and a line that parses
ends that field's loop with its value; concretely, feeding "abc" then
"5" to the width field prints exactly one retry message and accepts 5. -/
theorem c3_build_retry :
    (∀ w h rest wv hv, parse_u32 (trim w) = some wv → parse_u32 (trim h) = some hv →
        Rectangle.build (.line w :: .line h :: rest)
          = .ok (Rectangle.new wv hv) rest
              ["Enter value for width: ", "Enter value for height: "]) ∧
    (∀ out l rest, parse_u32 (trim l) = none →
        getInputLoop out (.line l :: rest)
          = getInputLoop (out ++ ["Input a number"]) rest) ∧
    (∀ out l rest n, parse_u32 (trim l) = some n →
        getInputLoop out (.line l :: rest) = .ok n rest out) ∧
    get_input "width" [.line "abc", .line "5"]
      = .ok 5 [] ["Enter value for width: ", "Input a number"] := by
  refine ⟨?_, ?_, ?_, by decide⟩
  · intro w h rest wv hv hw hh
    simp [Rectangle.build, get_input, getInputLoop, hw, hh]
  · intro out l rest hp
    simp [getInputLoop, hp]
  · intro out l rest n hp
    simp [getInputLoop, hp]

/-- Witness for C3: the width field with lines "abc" then "5". -/
theorem c3_witness :
    parse_u32 (trim "abc") = none ∧
      getInputLoop ["Enter value for width: "] [.line "abc", .line "5"]
        = getInputLoop ["Enter value for width: ", "Input a number"] [.line "5"] :=
  ⟨by decide, c3_build_retry.2.1 ["Enter value for width: "] "abc" [.line "5"] (by decide)⟩

/-- C7: in both programs, a failing read of a line from standard input
ends the run abnormally with the message "Failed to read line" instead
of retrying: the `get_input` loop returns the panic immediately, the
game loop moves to the fatal status, and a fatal state is a fixed
point of the game loop. -/
theorem c7_read_failure_fatal :
    (∀ out rest, getInputLoop out (.ioError :: rest)
        = .fatal "Failed to read line" out) ∧
    (∀ secret rest out, gameStep ⟨secret, .ioError :: rest, out, .playing⟩
        = ⟨secret, rest, out, .fatal "Failed to read line"⟩) ∧
    (∀ (s : GameState) m, s.status = .fatal m → gameStep s = s) := by
  refine ⟨fun out rest => rfl, fun secret rest out => rfl, ?_⟩
  intro s m hs
  rcases s with ⟨sec, stdin, out, st⟩
  cases st <;> simp_all [gameStep]

/-- Witness for C7: a game state that has already panicked stays put. -/
theorem c7_witness :
    (GameState.status ⟨1, [], [], .fatal "Failed to read line"⟩
        = .fatal "Failed to read line") ∧
      gameStep ⟨1, [], [], .fatal "Failed to read line"⟩
        = ⟨1, [], [], .fatal "Failed to read line"⟩ :=
  ⟨rfl, c7_read_failure_fatal.2.2 ⟨1, [], [], .fatal "Failed to read line"⟩
    "Failed to read line" rfl⟩

/-- `trimLeft` over an append: the left part survives exactly when it
does not trim away completely. -/
theorem trimLeft_append (xs ys : List Char) :
    trimLeft (xs ++ ys)
      = if trimLeft xs = [] then trimLeft ys else trimLeft xs ++ ys := by
  induction xs with
  | nil => simp [trimLeft]
  | cons c cs ih =>
    by_cases h : c.isWhitespace <;> simp [trimLeft, h, ih]

/-- Dropping one trailing whitespace character does not change the
trimmed string. -/
theorem trimList_append_ws (cs : List Char) (c : Char)
    (h : c.isWhitespace = true) : trimList (cs ++ [c]) = trimList cs := by
  unfold trimList
  rw [trimLeft_append]
  by_cases h0 : trimLeft cs = []
  · simp [h0, trimLeft, h]
  · rw [if_neg h0, List.reverse_append]
    simp [trimLeft, h]

/-- C8: before any parse attempt both programs trim the line read from
standard input: trimming drops every leading and every trailing
whitespace character (the terminating newline included), so the line
"  5  \n" parses to 5, is accepted by the `get_input` loop as the
value 5, and is compared as the guess 5 by the game loop. -/
theorem c8_lines_trimmed_before_parse :
    (∀ (c : Char) cs, c.isWhitespace = true → trimList (c :: cs) = trimList cs) ∧
    (∀ cs (c : Char), c.isWhitespace = true → trimList (cs ++ [c]) = trimList cs) ∧
    parse_u32 (trim "  5  \n") = some 5 ∧
    (∀ out rest, getInputLoop out (.line "  5  \n" :: rest) = .ok 5 rest out) ∧
    (∀ rest out, gameStep ⟨42, .line "  5  \n" :: rest, out, .playing⟩
        = ⟨42, rest, out ++ ["Too small!"], .playing⟩) := by
  refine ⟨?_, trimList_append_ws, by decide, ?_, ?_⟩
  · intro c cs h
    simp [trimList, trimLeft, h]
  · intro out rest
    simp [getInputLoop, show parse_u32 (trim "  5  \n") = some 5 from by decide]
  · intro rest out
    simp [gameStep, show parse_u32 (trim "  5  \n") = some 5 from by decide]

/-- Witness for C8: one trailing space stripped from "5 ". -/
theorem c8_witness :
    Char.isWhitespace ' ' = true ∧ trimList (['5'] ++ [' ']) = trimList ['5'] :=
  ⟨by decide, c8_lines_trimmed_before_parse.2.1 ['5'] ' ' (by decide)⟩
